import Mathlib

/-
  Verification of the money-ai-app gateway (src/server.ts).

  The source is a small Express server with four handlers of interest:
  - POST /api/razorpay/create-order   (lines 50-72)
  - POST /api/razorpay/verify-payment (lines 74-99)
  - POST /api/gemini/chat             (lines 101-121)
  - POST /api/gemini/chat-stream      (lines 124-167)

  Each handler is embedded as an executable Lean function over the inputs it
  reads (request-body fields, environment configuration, the upstream stream
  contents).  The HMAC-SHA256 hex digest computed by node crypto is a platform
  primitive, so the verify handler is parameterised by the digest function
  `hmac : String → String → String` (secret, payload ↦ hex digest); everything
  the claims state about the handler is relative to that function.
-/

namespace MoneyAiApp

/-! ## Streaming relay (POST /api/gemini/chat-stream, lines 145-166) -/

/-- A discrete wire event written on the SSE response after the headers:
`data c` is `res.write("data: " ++ json of c)` for a text fragment,
`doneEvent` is the pair of writes at lines 156-157, `errorEvent r` is the write
at line 162 carrying reason `r`, and `close` is `res.end()`. -/
inductive WireEvent where
  | data (text : String)
  | doneEvent
  | errorEvent (reason : String)
  | close
deriving DecidableEq, Repr

/-- How the upstream iterator `result.stream` ends after yielding its
fragments: normal exhaustion, or a raised error carrying a raw message. -/
inductive Outcome where
  | done
  | error (rawMsg : String)
deriving DecidableEq, Repr

/-- The wire events produced by the `try` block at lines 145-166, given the
fragments the upstream iterator yields (in order) and how it ends.  Mirrors
the `for await` loop: each non-empty fragment text is written as one `data`
event (line 152-154 skips empty texts); on exhaustion the handler writes the
done event and ends; if the iterator raises, the `catch` writes one error
event with the literal reason string and ends. -/
def runStream (chunks : List String) (outcome : Outcome) : List WireEvent :=
  match chunks with
  | [] =>
      match outcome with
      | Outcome.done => [WireEvent.doneEvent, WireEvent.close]
      | Outcome.error _ => [WireEvent.errorEvent "Streaming failed", WireEvent.close]
  | c :: rest =>
      (if c = "" then [] else [WireEvent.data c]) ++ runStream rest outcome

/-- The terminal events of a stream for each upstream outcome. -/
def terminalEvents : Outcome → List WireEvent
  | Outcome.done => [WireEvent.doneEvent, WireEvent.close]
  | Outcome.error _ => [WireEvent.errorEvent "Streaming failed", WireEvent.close]

/-- An observable operation of the stream handler: one pull of the upstream
iterator (one step of the `for await` loop), or one write on the response. -/
inductive RelayOp where
  | pull
  | write (e : WireEvent)
deriving DecidableEq, Repr

/-- The full operation trace of the `try` block at lines 145-166: each loop
iteration is one upstream pull followed by the write of the fragment (if
non-empty); the end of the iterator is discovered by one final pull, after
which the terminal events are written.  The handler reads nothing about the
connection state — it installs no close listener and checks no flag — so the
trace does not depend on when (or whether) the client disconnects. -/
def runStreamTrace (chunks : List String) (outcome : Outcome) : List RelayOp :=
  match chunks with
  | [] => RelayOp.pull :: (terminalEvents outcome).map RelayOp.write
  | c :: rest =>
      RelayOp.pull ::
        ((if c = "" then [] else [RelayOp.write (WireEvent.data c)]) ++
          runStreamTrace rest outcome)

/-! ## Signature verification (POST /api/razorpay/verify-payment, lines 74-99) -/

/-- Observable result of one call to the verify-payment handler: the HTTP
status, the `success` flag of the JSON body, how many times `io.emit` ran,
which events it broadcast, and whether the HMAC digest was computed at all. -/
structure VerifyResult where
  status : Nat
  success : Bool
  publishCount : Nat
  publishedEvents : List (String × String)
  hmacComputed : Bool
deriving DecidableEq, Repr

/-- The verify-payment handler, lines 74-99.  A missing request-body field
reaches the handler as JS `undefined`, which like the empty string is falsy
under the `!field` checks of line 77, so both are embedded as `""`.  `hmac`
stands for `crypto.createHmac(sha256, secret).update(payload).digest(hex)`.
If all three fields are truthy the handler computes the digest of
`orderId ++ "|" ++ paymentId`, compares it to the supplied signature with
`===`, emits `payment:verified` once when they are equal, and answers
`{success: isValid}` with status 200. -/
def verifyPayment (hmac : String → String → String)
    (razorpayKeySecret razorpay_order_id razorpay_payment_id razorpay_signature : String) :
    VerifyResult :=
  if razorpay_order_id = "" ∨ razorpay_payment_id = "" ∨ razorpay_signature = "" then
    { status := 400, success := false, publishCount := 0, publishedEvents := [],
      hmacComputed := false }
  else
    let payload := razorpay_order_id ++ "|" ++ razorpay_payment_id
    let expectedSignature := hmac razorpayKeySecret payload
    if expectedSignature = razorpay_signature then
      { status := 200, success := true, publishCount := 1,
        publishedEvents := [(razorpay_order_id, razorpay_payment_id)], hmacComputed := true }
    else
      { status := 200, success := false, publishCount := 0, publishedEvents := [],
        hmacComputed := true }

/-! ## Cost model of the `===` comparison at line 87

JS string equality on non-identical strings compares character by character
and stops at the first mismatch (the sequential cost model of `a === b`); the
handler uses it directly and never calls `crypto.timingSafeEqual`.  `eqList`
is that comparison on the character lists and `eqListSteps` counts its
character comparisons. -/

/-- Early-stopping sequential string equality: the semantics of `===` on two
strings, character by character. -/
def eqList : List Char → List Char → Bool
  | [], [] => true
  | [], _ :: _ => false
  | _ :: _, [] => false
  | x :: xs, y :: ys => if x = y then eqList xs ys else false

/-- Number of character comparisons the early-stopping equality performs. -/
def eqListSteps : List Char → List Char → Nat
  | [], [] => 0
  | [], _ :: _ => 0
  | _ :: _, [] => 0
  | x :: xs, y :: ys => if x = y then 1 + eqListSteps xs ys else 1

/-- `===` on strings, via the character lists. -/
def strEqJs (a b : String) : Bool := eqList a.data b.data

/-- Cost of `===` on strings under the sequential model. -/
def strEqJsSteps (a b : String) : Nat := eqListSteps a.data b.data

/-! ## Order creation (POST /api/razorpay/create-order, lines 50-72) -/

/-- The options object of lines 60-64, passed to `razorpay.orders.create`. -/
structure OrderOptions where
  amount : ℤ
  currency : String
  receipt : String
deriving DecidableEq, Repr

/-- Observable result of one call to the create-order handler: the HTTP
status and the options of the upstream order-creation call, `none` when no
upstream call is made. -/
structure CreateOrderResult where
  status : Nat
  upstreamCall : Option OrderOptions
deriving DecidableEq, Repr

/-- `Math.round`: round half towards positive infinity. -/
def jsRound (q : ℚ) : ℤ := ⌊q + 1 / 2⌋

/-- The create-order handler, lines 50-72.  The credentials are the module
constants of lines 32-33, which default to `""` when the environment variable
is absent.  The amount arrives as `Number(req.body.amount)`, embedded as a
rational; the guard `!amount || amount <= 0` of line 56 rejects exactly the
non-positive rationals.  `now` is `Date.now()` at the time of the call, used
only to build the receipt string of line 63. -/
def createOrder (razorpayKeyId razorpayKeySecret : String) (amountInRupees : ℚ)
    (now : Nat) : CreateOrderResult :=
  if razorpayKeyId = "" ∨ razorpayKeySecret = "" then
    { status := 500, upstreamCall := none }
  else if amountInRupees ≤ 0 then
    { status := 400, upstreamCall := none }
  else
    { status := 200,
      upstreamCall := some
        { amount := jsRound (amountInRupees * 100), currency := "INR",
          receipt := "rcpt_" ++ toString now } }

/-! ## Gemini handlers (lines 101-121 and 124-137) -/

/-- The prompt as the handler sees `req.body.prompt`: `some p` for a string
value `p`, `none` for a missing or non-string value (both fail the
`typeof prompt === string` side of the check, and a missing value is also
falsy). -/
abbrev PromptField := Option String

/-- Whether `!prompt || typeof prompt !== 'string'` rejects the field. -/
def promptInvalid : PromptField → Bool
  | none => true
  | some p => p = ""

/-- HTTP status chosen by the non-streaming chat handler, lines 101-121: the
API-key check of line 105 runs before the prompt check of line 108. -/
def chatStatus (apiKey : String) (prompt : PromptField) : Nat :=
  if apiKey = "" then 500
  else if promptInvalid prompt then 400
  else 200

/-- HTTP status chosen by the chat-stream handler before the stream starts,
lines 124-143: the API-key check of line 126 runs before the prompt check of
line 133; status 200 means the SSE headers of line 139 are written and the
stream of `runStream` follows. -/
def chatStreamStatus (apiKey : String) (prompt : PromptField) : Nat :=
  if apiKey = "" then 500
  else if promptInvalid prompt then 400
  else 200

/-! ## Helper lemmas -/

/-- The stream output is the data events of the non-empty fragments, in
order, followed by the terminal events of the outcome. -/
theorem runStream_eq_filter (chunks : List String) (outcome : Outcome) :
    runStream chunks outcome =
      (chunks.filter (fun c => ¬ c = "")).map WireEvent.data ++ terminalEvents outcome := by
  induction chunks with
  | nil => cases outcome <;> rfl
  | cons c rest ih =>
      by_cases h : c = "" <;>
        simp [runStream, List.filter, h, ih]

/-- The sequential equality agrees with propositional equality on lists. -/
theorem eqList_correct (a b : List Char) : eqList a b = true ↔ a = b := by
  induction a generalizing b with
  | nil => cases b <;> simp [eqList]
  | cons x xs ih =>
      cases b with
      | nil => simp [eqList]
      | cons y ys =>
          by_cases h : x = y <;> simp [eqList, h, ih]

/-- The early-stopping model of `===` agrees with string equality. -/
theorem strEqJs_correct (a b : String) : strEqJs a b = true ↔ a = b := by
  rw [strEqJs, eqList_correct]
  exact ⟨String.ext, congrArg String.data⟩

/-- With all three fields non-empty the verify handler reaches the digest
comparison and answers 200 with the comparison outcome. -/
theorem verifyPayment_valid_fields (hmac : String → String → String)
    (secret o p s : String) (ho : o ≠ "") (hp : p ≠ "") (hs : s ≠ "") :
    verifyPayment hmac secret o p s =
      if hmac secret (o ++ "|" ++ p) = s then
        { status := 200, success := true, publishCount := 1,
          publishedEvents := [(o, p)], hmacComputed := true }
      else
        { status := 200, success := false, publishCount := 0, publishedEvents := [],
          hmacComputed := true } := by
  have hv : ¬ (o = "" ∨ p = "" ∨ s = "") := by simp [ho, hp, hs]
  simp only [verifyPayment, if_neg hv]

/-- With a missing or empty field the verify handler answers 400 and computes
nothing. -/
theorem verifyPayment_missing_field (hmac : String → String → String)
    (secret o p s : String) (hv : o = "" ∨ p = "" ∨ s = "") :
    verifyPayment hmac secret o p s =
      { status := 400, success := false, publishCount := 0, publishedEvents := [],
        hmacComputed := false } := by
  simp only [verifyPayment, if_pos hv]

/-! ## Claim theorems -/

/-- Claim C1: for every verification request with all three fields present,
the `payment:verified` event is published iff the supplied signature equals
the hex HMAC-SHA256 of `orderId ++ "|" ++ referenceId` under the configured
secret; when published it is published exactly once (`publishCount = 1`), and
a call whose body says `success: false` never publishes. -/
theorem verify_publish_iff (hmac : String → String → String) (secret o p s : String) :
    ((o ≠ "" → p ≠ "" → s ≠ "" →
        ((verifyPayment hmac secret o p s).publishCount = 1 ↔
          s = hmac secret (o ++ "|" ++ p))) ∧
      ((verifyPayment hmac secret o p s).success = false →
        (verifyPayment hmac secret o p s).publishCount = 0)) := by
  constructor
  · intro ho hp hs
    rw [verifyPayment_valid_fields hmac secret o p s ho hp hs]
    by_cases he : hmac secret (o ++ "|" ++ p) = s
    · rw [if_pos he]
      simpa using he.symm
    · rw [if_neg he]
      constructor
      · intro h0
        simp at h0
      · intro hh
        exact absurd hh.symm he
  · by_cases hv : o = "" ∨ p = "" ∨ s = ""
    · rw [verifyPayment_missing_field hmac secret o p s hv]
      intro _
      rfl
    · push_neg at hv
      obtain ⟨ho, hp, hs⟩ := hv
      rw [verifyPayment_valid_fields hmac secret o p s ho hp hs]
      by_cases he : hmac secret (o ++ "|" ++ p) = s
      · rw [if_pos he]
        simp
      · rw [if_neg he]
        intro _
        rfl

/-- Witness for C1 at a concrete digest function and concrete fields. -/
theorem verify_publish_iff_witness :
    (verifyPayment (fun sec payload => sec ++ payload) "k" "a" "b" "ka|b").publishCount = 1 := by
  have h := verify_publish_iff (fun sec payload => sec ++ payload) "k" "a" "b" "ka|b"
  exact (h.1 (by decide) (by decide) (by decide)).mpr (by decide)

/-- Claim C2 (refuted; the code uses plain `===`, not a constant-time
primitive): under the sequential cost model of `===`, comparing the expected
signature `"abcd"` against a supplied value mismatching at position 0 costs 1
character comparison while a value mismatching at position 3 costs 4, so the
comparison count depends on the position of the first mismatch. -/
theorem strEqJs_steps_mismatch_position :
    strEqJs "abcd" "zbcd" = false ∧ strEqJs "abcd" "abcz" = false ∧
    strEqJsSteps "abcd" "zbcd" = 1 ∧ strEqJsSteps "abcd" "abcz" = 4 ∧
    strEqJsSteps "abcd" "zbcd" ≠ strEqJsSteps "abcd" "abcz" := by decide

/-- Claim C3: when the upstream iterator yields some (non-empty) fragments
and then raises, the wire output is exactly the data events of those
fragments in order, then one error event carrying the generic reason
(independent of the raw upstream message), then the transport close; no done
event is ever written on this path, and the data events written before the
failure stay in place. -/
theorem stream_error_path (chunks : List String) (raw : String)
    (h : ∀ c ∈ chunks, c ≠ "") :
    runStream chunks (Outcome.error raw) =
      chunks.map WireEvent.data ++
        [WireEvent.errorEvent "Streaming failed", WireEvent.close] ∧
    WireEvent.doneEvent ∉ runStream chunks (Outcome.error raw) := by
  have hf : chunks.filter (fun c => ¬ c = "") = chunks := by
    rw [List.filter_eq_self]
    intro a ha
    simpa using h a ha
  constructor
  · rw [runStream_eq_filter, hf]
    rfl
  · rw [runStream_eq_filter, hf]
    simp [terminalEvents]

/-- Witness for C3 at the spec's example fragments and a concrete raw
upstream error message. -/
theorem stream_error_path_witness :
    runStream ["Hel", "lo"] (Outcome.error "boom") =
      [WireEvent.data "Hel", WireEvent.data "lo",
       WireEvent.errorEvent "Streaming failed", WireEvent.close] :=
  (stream_error_path ["Hel", "lo"] "boom" (by decide)).1

/-- Claim C4 (refuted; the handler never observes the connection state): the
operation trace of a session with five upstream fragments is the same whether
or not the client disconnects after the second fragment — all five fragments
are pulled, every data event is written, and the done event and close are
still attempted, so pulls and writes do not stop at the disconnect point. -/
theorem stream_trace_after_disconnect :
    runStreamTrace ["f1", "f2", "f3", "f4", "f5"] Outcome.done =
      [RelayOp.pull, RelayOp.write (WireEvent.data "f1"),
       RelayOp.pull, RelayOp.write (WireEvent.data "f2"),
       RelayOp.pull, RelayOp.write (WireEvent.data "f3"),
       RelayOp.pull, RelayOp.write (WireEvent.data "f4"),
       RelayOp.pull, RelayOp.write (WireEvent.data "f5"),
       RelayOp.pull, RelayOp.write WireEvent.doneEvent,
       RelayOp.write WireEvent.close] := by decide

/-- Claim C5, counterexample: with the payment secret absent (the module
constant defaults to `""`) and all three request fields present, the
verify-payment handler does not answer 500 — it proceeds and answers 200,
because lines 74-99 contain no credential check. -/
theorem verify_missing_secret_not_500 :
    (verifyPayment (fun sec payload => sec ++ payload) "" "order1" "pay1" "sig1").status = 200 ∧
    ¬ (verifyPayment (fun sec payload => sec ++ payload) "" "order1" "pay1" "sig1").status = 500 := by
  decide

/-- Claim C5, amended: with either payment credential absent, order creation
answers 500 at call time and makes no upstream call; payment verification
performs no credential check — with the secret absent and all fields present
it still computes the HMAC digest (with the empty-string secret) and answers
200 with a boolean body. -/
theorem credential_check_amended (hmac : String → String → String)
    (razorpayKeyId razorpayKeySecret : String)
    (hmiss : razorpayKeyId = "" ∨ razorpayKeySecret = "")
    (amount : ℚ) (now : Nat) (o p s : String)
    (ho : o ≠ "") (hp : p ≠ "") (hs : s ≠ "") :
    (createOrder razorpayKeyId razorpayKeySecret amount now).status = 500 ∧
    (createOrder razorpayKeyId razorpayKeySecret amount now).upstreamCall = none ∧
    (verifyPayment hmac "" o p s).status = 200 ∧
    (verifyPayment hmac "" o p s).hmacComputed = true := by
  have hc : createOrder razorpayKeyId razorpayKeySecret amount now =
      { status := 500, upstreamCall := none } := by
    simp only [createOrder, if_pos hmiss]
  rw [hc, verifyPayment_valid_fields hmac "" o p s ho hp hs]
  by_cases he : hmac "" (o ++ "|" ++ p) = s
  · rw [if_pos he]
    exact ⟨rfl, rfl, rfl, rfl⟩
  · rw [if_neg he]
    exact ⟨rfl, rfl, rfl, rfl⟩

/-- Witness for the amended C5 at concrete inputs. -/
theorem credential_check_amended_witness :
    (createOrder "" "secret1" 5 3).status = 500 ∧
    (createOrder "" "secret1" 5 3).upstreamCall = none ∧
    (verifyPayment (fun sec payload => sec ++ payload) "" "o1" "p1" "s1").status = 200 ∧
    (verifyPayment (fun sec payload => sec ++ payload) "" "o1" "p1" "s1").hmacComputed = true :=
  credential_check_amended (fun sec payload => sec ++ payload) "" "secret1"
    (Or.inl rfl) 5 3 "o1" "p1" "s1" (by decide) (by decide) (by decide)

/-- Claim C6: with credentials configured, a positive amount in major units
is converted to minor units by multiplying by 100 and rounding to the nearest
integer before the upstream call, and a zero or negative amount yields 400
with no upstream call made. -/
theorem amount_conversion (razorpayKeyId razorpayKeySecret : String)
    (hk : razorpayKeyId ≠ "") (hs : razorpayKeySecret ≠ "")
    (amountInRupees : ℚ) (now : Nat) :
    (0 < amountInRupees →
      (createOrder razorpayKeyId razorpayKeySecret amountInRupees now).upstreamCall =
        some { amount := jsRound (amountInRupees * 100), currency := "INR",
               receipt := "rcpt_" ++ toString now }) ∧
    (amountInRupees ≤ 0 →
      (createOrder razorpayKeyId razorpayKeySecret amountInRupees now).status = 400 ∧
      (createOrder razorpayKeyId razorpayKeySecret amountInRupees now).upstreamCall = none) := by
  have hv : ¬ (razorpayKeyId = "" ∨ razorpayKeySecret = "") := by simp [hk, hs]
  constructor
  · intro hpos
    simp only [createOrder, if_neg hv, if_neg (not_le.mpr hpos)]
  · intro hnonpos
    simp [createOrder, if_neg hv, if_pos hnonpos]

/-- Witness for C6: amount 19.99 (as the rational 1999/100) is sent upstream
as 1999 minor units, and amount 0 is rejected with 400. -/
theorem amount_conversion_witness :
    (createOrder "key1" "secret1" (1999 / 100) 7).upstreamCall =
      some { amount := 1999, currency := "INR", receipt := "rcpt_7" } ∧
    (createOrder "key1" "secret1" 0 7).status = 400 := by
  have h1 := amount_conversion "key1" "secret1" (by decide) (by decide) (1999 / 100) 7
  have h2 := amount_conversion "key1" "secret1" (by decide) (by decide) 0 7
  refine ⟨?_, (h2.2 le_rfl).1⟩
  rw [h1.1 (by norm_num)]
  have hj : jsRound ((1999 : ℚ) / 100 * 100) = 1999 := by
    have h100 : ((1999 : ℚ) / 100 * 100) = 1999 := by norm_num
    rw [jsRound, h100, Int.floor_eq_iff]
    norm_num
  rw [hj]
  decide

/-- Claim C7: a verification request with any of the three fields missing or
empty fails with 400 before the HMAC digest is computed, and nothing is
published on that path. -/
theorem verify_validation_before_hmac (hmac : String → String → String)
    (razorpayKeySecret o p s : String) (h : o = "" ∨ p = "" ∨ s = "") :
    (verifyPayment hmac razorpayKeySecret o p s).status = 400 ∧
    (verifyPayment hmac razorpayKeySecret o p s).hmacComputed = false ∧
    (verifyPayment hmac razorpayKeySecret o p s).publishCount = 0 := by
  rw [verifyPayment_missing_field hmac razorpayKeySecret o p s h]
  exact ⟨rfl, rfl, rfl⟩

/-- Witness for C7 with the order id missing. -/
theorem verify_validation_before_hmac_witness :
    (verifyPayment (fun sec payload => sec ++ payload) "k" "" "p1" "s1").status = 400 ∧
    (verifyPayment (fun sec payload => sec ++ payload) "k" "" "p1" "s1").hmacComputed = false ∧
    (verifyPayment (fun sec payload => sec ++ payload) "k" "" "p1" "s1").publishCount = 0 :=
  verify_validation_before_hmac (fun sec payload => sec ++ payload) "k" "" "p1" "s1" (Or.inl rfl)

/-- Claim C8: on the success path the wire output is one data event per
non-empty upstream fragment, none for empty fragments, in exactly the
upstream production order, followed by the terminal done event and close. -/
theorem stream_success_data_events (chunks : List String) :
    runStream chunks Outcome.done =
      (chunks.filter (fun c => ¬ c = "")).map WireEvent.data ++
        [WireEvent.doneEvent, WireEvent.close] :=
  runStream_eq_filter chunks Outcome.done

/-- Claim C9: on both generation endpoints the API-key check runs before
prompt validation, so a request with no configured key and a missing or
non-string prompt gets 500, not 400. -/
theorem config_check_precedes_prompt_validation :
    chatStatus "" none = 500 ∧ chatStreamStatus "" none = 500 :=
  ⟨rfl, rfl⟩

/-- Claim C10: every order-creation request that reaches the upstream call
does so with the fixed currency INR and the system-generated receipt
`rcpt_` followed by the call timestamp; the request body supplies only the
amount, so the caller cannot select a currency. -/
theorem order_currency_receipt_fixed (razorpayKeyId razorpayKeySecret : String)
    (amountInRupees : ℚ) (now : Nat)
    (hk : razorpayKeyId ≠ "") (hs : razorpayKeySecret ≠ "") (ha : 0 < amountInRupees) :
    ∃ opts : OrderOptions,
      (createOrder razorpayKeyId razorpayKeySecret amountInRupees now).upstreamCall =
        some opts ∧
      opts.currency = "INR" ∧ opts.receipt = "rcpt_" ++ toString now := by
  have hv : ¬ (razorpayKeyId = "" ∨ razorpayKeySecret = "") := by simp [hk, hs]
  refine ⟨{ amount := jsRound (amountInRupees * 100), currency := "INR",
            receipt := "rcpt_" ++ toString now }, ?_, rfl, rfl⟩
  simp only [createOrder, if_neg hv, if_neg (not_le.mpr ha)]

/-- Witness for C10 at concrete credentials, amount and timestamp. -/
theorem order_currency_receipt_fixed_witness :
    ∃ opts : OrderOptions,
      (createOrder "key1" "secret1" 5 3).upstreamCall = some opts ∧
      opts.currency = "INR" ∧ opts.receipt = "rcpt_" ++ toString 3 :=
  order_currency_receipt_fixed "key1" "secret1" 5 3 (by decide) (by decide) (by norm_num)

end MoneyAiApp
